import Mathlib

set_option maxHeartbeats 1000000
set_option maxRecDepth 4000

/-!
Verification development for the profile-enhancer single-page client
(src/src/App.js). The app state, the analysis handler `handleAnalyze`,
the error rendering dispatch and the view-mode predicates are embedded
as executable Lean definitions, together with a model of the JavaScript
value universe (including `undefined`, truthiness, property access that
throws a TypeError on `undefined`/`null` receivers) and a model of the
`JSON.parse` builtin restricted to integer numerals (the app never
relies on fractional JSON numbers).
-/

/-- Model of a JavaScript runtime value as consumed by App.js: JSON
values plus `undefined`. Numbers are modelled as integers (every number
the app manipulates - HTTP statuses, array lengths, star counts - is an
integer). -/
inductive JSValue where
  | undefined : JSValue
  | jnull : JSValue
  | jbool : Bool → JSValue
  | jnum : Int → JSValue
  | jstr : String → JSValue
  | jarr : List JSValue → JSValue
  | jobj : List (String × JSValue) → JSValue

/-- JavaScript truthiness for the modelled values. -/
def truthy : JSValue → Bool
  | .undefined => false
  | .jnull => false
  | .jbool b => b
  | .jnum n => n != 0
  | .jstr s => s != ""
  | .jarr _ => true
  | .jobj _ => true

/-- First binding of a key in an object literal (the fixtures below use
no duplicate keys, so first-wins agrees with JavaScript last-wins). -/
def lookupField : List (String × JSValue) → String → Option JSValue
  | [], _ => none
  | (k, v) :: fs, p => if k = p then some v else lookupField fs p

/-- JavaScript property access `v.p`. Throws a TypeError on `undefined`
and `null` receivers, yields `undefined` for absent properties, and
exposes `length` on arrays and strings. -/
def getProp : JSValue → String → Except String JSValue
  | .undefined, p =>
      .error ("TypeError: Cannot read properties of undefined (reading " ++ p ++ ")")
  | .jnull, p =>
      .error ("TypeError: Cannot read properties of null (reading " ++ p ++ ")")
  | .jbool _, _ => .ok .undefined
  | .jnum _, _ => .ok .undefined
  | .jstr s, p => if p = "length" then .ok (.jnum (Int.ofNat s.length)) else .ok .undefined
  | .jarr xs, p => if p = "length" then .ok (.jnum (Int.ofNat xs.length)) else .ok .undefined
  | .jobj fs, p =>
      match lookupField fs p with
      | some v => .ok v
      | none => .ok .undefined

/-- JavaScript index access `v[i]` for a natural index. -/
def getIndex : JSValue → Nat → Except String JSValue
  | .undefined, i =>
      .error ("TypeError: Cannot read properties of undefined (reading " ++ toString i ++ ")")
  | .jnull, i =>
      .error ("TypeError: Cannot read properties of null (reading " ++ toString i ++ ")")
  | .jarr xs, i =>
      .ok (match xs.get? i with
           | some v => v
           | none => .undefined)
  | .jstr s, i =>
      .ok (match s.toList.get? i with
           | some c => .jstr (String.mk [c])
           | none => .undefined)
  | _, _ => .ok .undefined

/-- JavaScript comparison `v > 0` for the shapes the app exercises
(`length` values and `undefined`; a numeric string coerces). -/
def jsGtZero : JSValue → Bool
  | .jnum n => decide (0 < n)
  | .jstr s =>
      match s.toInt? with
      | some n => decide (0 < n)
      | none => false
  | _ => false

mutual

/-- JavaScript string coercion `String(v)` for the modelled values. -/
def jsToString : JSValue → String
  | .undefined => "undefined"
  | .jnull => "null"
  | .jbool true => "true"
  | .jbool false => "false"
  | .jnum n => toString n
  | .jstr s => s
  | .jarr xs => String.intercalate "," (jsJoinParts xs)
  | .jobj _ => "[object Object]"

/-- `Array.prototype.join` renders `null` and `undefined` elements as
empty strings. -/
def jsJoinParts : List JSValue → List String
  | [] => []
  | .undefined :: xs => "" :: jsJoinParts xs
  | .jnull :: xs => "" :: jsJoinParts xs
  | x :: xs => jsToString x :: jsJoinParts xs

end

/-- The character U+007B, kept out of literals. -/
def lbraceC : Char := Char.ofNat 123

/-- The character U+007D, kept out of literals. -/
def rbraceC : Char := Char.ofNat 125

/-- JSON whitespace. -/
def isWsChar (c : Char) : Bool := c = ' ' || c = '\t' || c = '\n' || c = '\r'

/-- Drop leading JSON whitespace. -/
def skipWs : List Char → List Char
  | [] => []
  | c :: cs => if isWsChar c then skipWs cs else c :: cs

/-- Single-character JSON string escapes (the `\u` form is outside this
model; no fixture uses it). -/
def escChar : Char → Option Char
  | '"' => some '"'
  | '\\' => some '\\'
  | '/' => some '/'
  | 'b' => some (Char.ofNat 8)
  | 'f' => some (Char.ofNat 12)
  | 'n' => some '\n'
  | 'r' => some '\r'
  | 't' => some '\t'
  | _ => none

/-- Parse the body of a JSON string after the opening quote. -/
def parseStrBody : List Char → Except String (String × List Char)
  | [] => .error "SyntaxError: Unterminated string in JSON"
  | c :: cs =>
    if c = '"' then .ok ("", cs)
    else if c = '\\' then
      match cs with
      | [] => .error "SyntaxError: Unterminated string in JSON"
      | e :: cs2 =>
        match escChar e with
        | none => .error "SyntaxError: Bad escaped character in JSON"
        | some d =>
          match parseStrBody cs2 with
          | .error m => .error m
          | .ok (r, rest) => .ok (String.mk (d :: r.toList), rest)
    else
      match parseStrBody cs with
      | .error m => .error m
      | .ok (r, rest) => .ok (String.mk (c :: r.toList), rest)

/-- Longest leading run of decimal digits. -/
def takeDigits : List Char → List Char × List Char
  | [] => ([], [])
  | c :: cs =>
    if c.isDigit then
      match takeDigits cs with
      | (ds, rest) => (c :: ds, rest)
    else ([], c :: cs)

/-- Decimal value of a digit run. -/
def digitsToNat (l : List Char) : Nat :=
  l.foldl (fun a c => a * 10 + (c.toNat - 48)) 0

/-- Parse a JSON integer numeral (fractional and exponent forms are
outside this model and reported as parse errors). -/
def parseNumber (cs : List Char) : Except String (JSValue × List Char) :=
  let signed : Bool × List Char :=
    match cs with
    | '-' :: rest => (true, rest)
    | _ => (false, cs)
  match takeDigits signed.2 with
  | ([], _) => .error "SyntaxError: Unexpected token in JSON"
  | (ds, rest) =>
    match rest with
    | '.' :: _ => .error "SyntaxError: Non-integer JSON numbers are outside this model"
    | 'e' :: _ => .error "SyntaxError: Non-integer JSON numbers are outside this model"
    | 'E' :: _ => .error "SyntaxError: Non-integer JSON numbers are outside this model"
    | _ =>
      let n : Int := Int.ofNat (digitsToNat ds)
      .ok (.jnum (if signed.1 then -n else n), rest)

/-- Match a literal keyword tail. -/
def stripKeyword : List Char → List Char → Option (List Char)
  | [], cs => some cs
  | p :: ps, c :: cs => if c = p then stripKeyword ps cs else none
  | _ :: _, [] => none

mutual

/-- Recursive-descent JSON value parser, fuelled. -/
def parseValue : Nat → List Char → Except String (JSValue × List Char)
  | 0, _ => .error "SyntaxError: JSON input exhausted the parser fuel"
  | fuel + 1, cs =>
    match skipWs cs with
    | [] => .error "SyntaxError: Unexpected end of JSON input"
    | c :: cs1 =>
      if c = '"' then
        match parseStrBody cs1 with
        | .error m => .error m
        | .ok (s, rest) => .ok (.jstr s, rest)
      else if c = '[' then
        match skipWs cs1 with
        | ']' :: rest => .ok (.jarr [], rest)
        | cs2 => parseElements fuel cs2 []
      else if c = lbraceC then
        match skipWs cs1 with
        | [] => .error "SyntaxError: Unexpected end of JSON input"
        | c2 :: rest =>
          if c2 = rbraceC then .ok (.jobj [], rest)
          else parseMembers fuel (c2 :: rest) []
      else if c = 't' then
        match stripKeyword ['r', 'u', 'e'] cs1 with
        | some rest => .ok (.jbool true, rest)
        | none => .error "SyntaxError: Unexpected token in JSON"
      else if c = 'f' then
        match stripKeyword ['a', 'l', 's', 'e'] cs1 with
        | some rest => .ok (.jbool false, rest)
        | none => .error "SyntaxError: Unexpected token in JSON"
      else if c = 'n' then
        match stripKeyword ['u', 'l', 'l'] cs1 with
        | some rest => .ok (.jnull, rest)
        | none => .error "SyntaxError: Unexpected token in JSON"
      else if c = '-' then parseNumber (c :: cs1)
      else if c.isDigit then parseNumber (c :: cs1)
      else .error "SyntaxError: Unexpected token in JSON"

/-- Elements of a JSON array after the opening bracket (nonempty case). -/
def parseElements : Nat → List Char → List JSValue → Except String (JSValue × List Char)
  | 0, _, _ => .error "SyntaxError: JSON input exhausted the parser fuel"
  | fuel + 1, cs, acc =>
    match parseValue fuel cs with
    | .error m => .error m
    | .ok (v, rest) =>
      match skipWs rest with
      | ',' :: rest2 => parseElements fuel rest2 (acc ++ [v])
      | ']' :: rest2 => .ok (.jarr (acc ++ [v]), rest2)
      | _ => .error "SyntaxError: Expected comma or closing bracket in JSON array"

/-- Members of a JSON object after the opening brace (nonempty case). -/
def parseMembers : Nat → List Char → List (String × JSValue) → Except String (JSValue × List Char)
  | 0, _, _ => .error "SyntaxError: JSON input exhausted the parser fuel"
  | fuel + 1, cs, acc =>
    match skipWs cs with
    | [] => .error "SyntaxError: Unexpected end of JSON input"
    | c :: cs1 =>
      if c = '"' then
        match parseStrBody cs1 with
        | .error m => .error m
        | .ok (k, rest) =>
          match skipWs rest with
          | ':' :: rest2 =>
            match parseValue fuel rest2 with
            | .error m => .error m
            | .ok (v, rest3) =>
              match skipWs rest3 with
              | [] => .error "SyntaxError: Unexpected end of JSON input"
              | c4 :: rest4 =>
                if c4 = ',' then parseMembers fuel rest4 (acc ++ [(k, v)])
                else if c4 = rbraceC then .ok (.jobj (acc ++ [(k, v)]), rest4)
                else .error "SyntaxError: Expected comma or closing brace in JSON object"
          | _ => .error "SyntaxError: Expected colon in JSON object"
      else .error "SyntaxError: Expected string key in JSON object"

end

/-- Model of the `JSON.parse` builtin on the integer-numeral fragment.
A thrown SyntaxError is the `Except.error` case. -/
def jsonParse (s : String) : Except String JSValue :=
  match parseValue (s.length + 1) s.toList with
  | .error m => .error m
  | .ok (v, rest) =>
    match skipWs rest with
    | [] => .ok v
    | _ => .error "SyntaxError: Unexpected non-whitespace character after JSON data"

/-- The component-local state of the App component: the seven useState
hooks of src/src/App.js lines 6-12, in declaration order. `username` is
the query text, `userData` the fetched profile (initially `null`),
`repos` the fetched repository array (initially `[]`), `suggestions`
the parsed generation output (initially `[]`), `error` the rendered
error message (initially `null`), `copiedIndex` the transient copy
indicator. -/
structure UIState where
  username : String
  userData : JSValue
  repos : JSValue
  suggestions : JSValue
  isLoading : Bool
  error : Option String
  copiedIndex : Option Int

/-- An HTTP response as consumed through `fetch`: its status code and
its already-parsed JSON body. -/
structure Response where
  status : Nat
  body : JSValue

/-- The `Response.ok` accessor of the fetch API: status in 200-299. -/
def respOk (r : Response) : Bool := 200 ≤ r.status && r.status ≤ 299

/-- The network environment of one analysis attempt: the responses the
three outbound requests would receive (profile, repositories,
generation), in the order the handler issues them. -/
structure Env where
  userResp : Response
  reposResp : Response
  genResp : Response

def validationMsg : String := "Please enter a GitHub username."

def userNotFoundMsg : String := "GitHub user not found."

def profileFetchFailedMsg (status : Nat) : String :=
  "Failed to fetch GitHub user data. Status: " ++ toString status

def reposFetchFailedMsg : String := "Failed to fetch GitHub repository data."

def apiKeyRestrictedToken : String := "API_KEY_RESTRICTED"

def generationFailedMsg (status : Nat) : String :=
  "AI API call failed with status: " ++ toString status

def contentBlockedMsg (reason : String) : String := "AI content blocked: " ++ reason

def noSuggestionsMsg : String := "AI failed to generate valid suggestions."

def generationForbiddenMsg : String :=
  "The AI analysis is disabled on this public site due to API key restrictions. This feature works in local development."

def unexpectedErrorMsg : String := "An unexpected error occurred. Please try again later."

def userUrl (username : String) : String := "https://api.github.com/users/" ++ username

def reposUrlSuffix : String := "?sort=updated&per_page=10"

def genApiUrl : String :=
  "https://generativelanguage.googleapis.com/v1beta/models/gemini-2.0-flash:generateContent?key="

/-- Lines 19-23 of App.js: the five setter calls performed, before any
fetch, on every submission of a nonempty query. -/
def beginAnalysis (s : UIState) : UIState :=
  { s with isLoading := true, error := none, userData := .jnull,
           repos := .jarr [], suggestions := .jarr [] }

/-- Lines 53-55 of App.js: the property accesses performed while the
prompt template is built (`name`, `login`, `bio` on the profile and the
`map` projection over the repository array). The assembled prompt text
itself is not inspected by any further control flow, so only the
accesses - which can throw a TypeError - are modelled. -/
def promptProjection (ud rd : JSValue) : Except String (List (JSValue × JSValue × JSValue × JSValue)) := do
  let _ ← getProp ud "name"
  let _ ← getProp ud "login"
  let _ ← getProp ud "bio"
  match rd with
  | .jarr xs =>
      xs.mapM (fun r => do
        let n ← getProp r "name"
        let d ← getProp r "description"
        let st ← getProp r "stargazers_count"
        let lg ← getProp r "language"
        pure (n, d, st, lg))
  | _ => .error "TypeError: fetchedRepoData.map is not a function"

/-- Line 99 of App.js: the guard
`result.candidates && result.candidates.length > 0 && result.candidates[0].content.parts[0].text`,
with JavaScript short-circuiting and TypeError propagation. -/
def genCondition (result : JSValue) : Except String Bool := do
  let cands ← getProp result "candidates"
  if !truthy cands then return false
  let cands2 ← getProp result "candidates"
  let len ← getProp cands2 "length"
  if !jsGtZero len then return false
  let cands3 ← getProp result "candidates"
  let c0 ← getIndex cands3 0
  let content ← getProp c0 "content"
  let parts ← getProp content "parts"
  let p0 ← getIndex parts 0
  let text ← getProp p0 "text"
  return truthy text

/-- Line 100 of App.js: `result.candidates[0].content.parts[0].text`. -/
def getGenText (result : JSValue) : Except String JSValue := do
  let cands ← getProp result "candidates"
  let c0 ← getIndex cands 0
  let content ← getProp c0 "content"
  let parts ← getProp content "parts"
  let p0 ← getIndex parts 0
  getProp p0 "text"

/-- Lines 104-107 of App.js: the message thrown when the guard of line
99 is falsy - the prompt-feedback block reason when present and truthy,
the generic no-suggestions message otherwise. -/
def noContentMsg (result : JSValue) : Except String String := do
  let pf ← getProp result "promptFeedback"
  if truthy pf then
    let br ← getProp pf "blockReason"
    if truthy br then
      return contentBlockedMsg (jsToString br)
    else
      return noSuggestionsMsg
  else
    return noSuggestionsMsg

/-- Outcome of the `try` block of `handleAnalyze`: the state after the
setter calls that did run, the URLs fetched in order, and the thrown
message when the block threw. -/
structure TryOutcome where
  state : UIState
  urls : List String
  thrown : Option String

/-- Lines 25-108 of App.js: the `try` block of `handleAnalyze`, started
from the state left by `beginAnalysis`. Statuses are tested in source
order (404 before `ok` for the profile, 403 before `ok` for the
generation call); the repositories URL is the fetched profile field
`repos_url` coerced to a string with the query suffix appended; the
parsed generation output is stored with no shape validation. -/
def runTry (s : UIState) (env : Env) : TryOutcome :=
  let uUrl := userUrl s.username
  if env.userResp.status = 404 then ⟨s, [uUrl], some userNotFoundMsg⟩
  else if !respOk env.userResp then
    ⟨s, [uUrl], some (profileFetchFailedMsg env.userResp.status)⟩
  else
    let fetchedUserData := env.userResp.body
    match getProp fetchedUserData "repos_url" with
    | .error m => ⟨s, [uUrl], some m⟩
    | .ok ru =>
      let rUrl := jsToString ru ++ reposUrlSuffix
      if !respOk env.reposResp then ⟨s, [uUrl, rUrl], some reposFetchFailedMsg⟩
      else
        let fetchedRepoData := env.reposResp.body
        let s1 : UIState := { s with userData := fetchedUserData, repos := fetchedRepoData }
        match promptProjection fetchedUserData fetchedRepoData with
        | .error m => ⟨s1, [uUrl, rUrl], some m⟩
        | .ok _ =>
          if env.genResp.status = 403 then
            ⟨s1, [uUrl, rUrl, genApiUrl], some apiKeyRestrictedToken⟩
          else if !respOk env.genResp then
            ⟨s1, [uUrl, rUrl, genApiUrl], some (generationFailedMsg env.genResp.status)⟩
          else
            let result := env.genResp.body
            match genCondition result with
            | .error m => ⟨s1, [uUrl, rUrl, genApiUrl], some m⟩
            | .ok true =>
              match getGenText result with
              | .error m => ⟨s1, [uUrl, rUrl, genApiUrl], some m⟩
              | .ok text =>
                match jsonParse (jsToString text) with
                | .error m => ⟨s1, [uUrl, rUrl, genApiUrl], some m⟩
                | .ok v => ⟨{ s1 with suggestions := v }, [uUrl, rUrl, genApiUrl], none⟩
            | .ok false =>
              match noContentMsg result with
              | .error m => ⟨s1, [uUrl, rUrl, genApiUrl], some m⟩
              | .ok m => ⟨s1, [uUrl, rUrl, genApiUrl], some m⟩

/-- Lines 112-116 of App.js: the message stored by the `catch` block -
the restricted-deployment copy for the `API_KEY_RESTRICTED` marker, the
fallback for an empty message, the thrown message itself otherwise. -/
def renderMessage (m : String) : String :=
  if m = apiKeyRestrictedToken then generationForbiddenMsg
  else if m = "" then unexpectedErrorMsg
  else m

/-- Lines 110-124 of App.js: the `catch` and `finally` blocks.
`closure` is the component state captured when the running handler was
created - the `userData` tested on line 118 is that stale closure value,
not the value stored during this attempt. -/
def catchFinally (closure : UIState) (o : TryOutcome) : UIState :=
  match o.thrown with
  | none => { o.state with isLoading := false }
  | some m =>
    let s3 := { o.state with error := some (renderMessage m) }
    let s4 :=
      if truthy closure.userData then s3
      else { s3 with userData := .jnull, repos := .jarr [] }
    { s4 with isLoading := false }

/-- Lines 14-125 of App.js: one invocation of `handleAnalyze` from the
committed state `s`, against network environment `env`. Returns the
resulting state and the list of URLs fetched, in order. -/
def handleAnalyze (s : UIState) (env : Env) : UIState × List String :=
  if s.username = "" then ({ s with error := some validationMsg }, [])
  else
    let o := runTry (beginAnalysis s) env
    (catchFinally s o, o.urls)

/-- Line 187 of App.js: the query field key handler
`(e) => e.key === Enter && handleAnalyze()` - no guard on `isLoading`. -/
def inputKeyPress (key : String) (s : UIState) (env : Env) : UIState × List String :=
  if key = "Enter" then handleAnalyze s env else (s, [])

/-- Lines 190-193 of App.js: the submit button - `disabled={isLoading}`
suppresses the click entirely while loading. -/
def buttonClick (s : UIState) (env : Env) : UIState × List String :=
  if s.isLoading then (s, []) else handleAnalyze s env

/-- Truthiness of the `error` state value as tested by the render
guards (lines 143 and 223 of App.js). -/
def errTruthy : Option String → Bool
  | none => false
  | some e => e != ""

/-- The two renderings of the error banner. -/
inductive RenderKind where
  | restricted : RenderKind
  | generic : RenderKind
deriving DecidableEq

/-- The `String.prototype.includes` builtin. -/
def jsIncludes (s sub : String) : Bool := decide (sub.toList <:+: s.toList)

/-- Lines 142-162 of App.js: `renderError` - nothing when `error` is
falsy, the restricted-capability banner when the message contains the
phrase scanned for on line 145, the generic alarming banner otherwise. -/
def renderErrorKind : Option String → Option RenderKind
  | none => none
  | some e =>
    if e = "" then none
    else if jsIncludes e "API key restrictions" then some RenderKind.restricted
    else some RenderKind.generic

/-- Line 207 of App.js: the loading panel guard. -/
def showsLoading (s : UIState) : Bool := s.isLoading

/-- Line 215 of App.js: the idle panel guard. -/
def showsIdle (s : UIState) : Bool :=
  !s.isLoading && !truthy s.userData && !errTruthy s.error

/-- Line 223 of App.js: the error banner guard `error && !isLoading`. -/
def showsError (s : UIState) : Bool := errTruthy s.error && !s.isLoading

/-- Line 225 of App.js: the results block guard `!isLoading && userData`. -/
def showsResults (s : UIState) : Bool := !s.isLoading && truthy s.userData

/-- Spec-side predicate, written from the words of the specification
(section 4.2): one suggestion is an object with non-empty string fields
`title` and `markdown`. Used to compare the stored generation output
against the shape the specification requires. -/
def specValidSuggestion : JSValue → Bool
  | .jobj fs =>
      (match lookupField fs "title" with
       | some (.jstr t) => t != ""
       | _ => false) &&
      (match lookupField fs "markdown" with
       | some (.jstr m) => m != ""
       | _ => false)
  | _ => false

/-- Spec-side predicate (section 4.2): the generation content must
parse into an array of valid suggestions. -/
def specValidSuggestions : JSValue → Bool
  | .jarr xs => xs.all specValidSuggestion
  | _ => false

/-- The error taxonomy of specification section 7, one constructor per
kind. -/
inductive ErrKind where
  | validation : ErrKind
  | userNotFound : ErrKind
  | profileFetchFailed : Nat → ErrKind
  | reposFetchFailed : ErrKind
  | generationForbidden : ErrKind
  | generationFailed : Nat → ErrKind
  | contentBlocked : String → ErrKind
  | noSuggestions : ErrKind
deriving DecidableEq

/-- The message App.js stores in `error` for each kind of the taxonomy
(for `generationForbidden` this is the message substituted by the catch
block of lines 112-113). -/
def errKindMsg : ErrKind → String
  | .validation => validationMsg
  | .userNotFound => userNotFoundMsg
  | .profileFetchFailed status => profileFetchFailedMsg status
  | .reposFetchFailed => reposFetchFailedMsg
  | .generationForbidden => generationForbiddenMsg
  | .generationFailed status => generationFailedMsg status
  | .contentBlocked reason => contentBlockedMsg reason
  | .noSuggestions => noSuggestionsMsg

/-- A GitHub profile body as returned by the users endpoint (the fields
App.js consumes). -/
def profileBody : JSValue :=
  .jobj [("login", .jstr "octocat"), ("name", .jstr "The Octocat"), ("bio", .jnull),
         ("avatar_url", .jstr "https://example.com/a.png"),
         ("repos_url", .jstr "https://api.github.com/users/octocat/repos")]

/-- A repository body as returned by the repos endpoint. -/
def repoObj (i : Nat) : JSValue :=
  .jobj [("id", .jnum (Int.ofNat i)), ("name", .jstr ("repo" ++ toString i)),
         ("description", .jnull), ("language", .jstr "TypeScript"),
         ("stargazers_count", .jnum 3), ("forks_count", .jnum 1),
         ("html_url", .jstr ("https://example.com/repo" ++ toString i))]

/-- A generation response body whose first candidate carries content
text `t`. -/
def mkGenBody (t : String) : JSValue :=
  .jobj [("candidates",
          .jarr [.jobj [("content", .jobj [("parts", .jarr [.jobj [("text", .jstr t)]])])]])]

/-- A generation response body with an empty candidates array and an
optional prompt-feedback block reason. -/
def mkNoCandidatesBody : Option String → JSValue
  | some r => .jobj [("candidates", .jarr []),
                     ("promptFeedback", .jobj [("blockReason", .jstr r)])]
  | none => .jobj [("candidates", .jarr [])]

/-- The committed state of a freshly mounted component after the user
typed the query `octocat`: every other hook still holds its initial
value. -/
def freshState : UIState :=
  ⟨"octocat", .jnull, .jarr [], .jarr [], false, none, none⟩

/-- The fresh state while an analysis is in flight. -/
def loadingState : UIState :=
  ⟨"octocat", .jnull, .jarr [], .jarr [], true, none, none⟩

/-- A fresh state whose query text is a single space. -/
def wsState : UIState :=
  ⟨" ", .jnull, .jarr [], .jarr [], false, none, none⟩

/-- A committed Results state from an earlier successful analysis. -/
def resultsState : UIState :=
  ⟨"octocat", profileBody, .jarr [repoObj 1], .jarr [], false, none, none⟩

/-- A successful profile response. -/
def okUser : Response := ⟨200, profileBody⟩

/-- A successful one-repository response. -/
def okRepos1 : Response := ⟨200, .jarr [repoObj 1]⟩

/-- Environment: profile and repositories succeed, generation answers
HTTP 403. -/
def envGen403 : Env := ⟨okUser, okRepos1, ⟨403, .jobj []⟩⟩

/-- Environment: the profile endpoint answers 404. -/
def env404 : Env := ⟨⟨404, .jobj []⟩, okRepos1, ⟨200, .jobj []⟩⟩

/-- Environment: repositories endpoint answers the given non-success
status. -/
def envReposFail (status : Nat) : Env := ⟨okUser, ⟨status, .jobj []⟩, ⟨200, .jobj []⟩⟩

/-- Environment: generation succeeds with content text `t`. -/
def envGenOk (t : String) : Env := ⟨okUser, okRepos1, ⟨200, mkGenBody t⟩⟩

/-- Environment: generation answers 200 with a nonempty candidates
array whose first candidate has no `content` field, and a prompt
feedback block reason. -/
def envNoContent : Env :=
  ⟨okUser, okRepos1,
   ⟨200, .jobj [("candidates", .jarr [.jobj []]),
                ("promptFeedback", .jobj [("blockReason", .jstr "SAFETY")])]⟩⟩

/-- Environment: generation answers 200 with an empty candidates array
and a block reason that itself contains the phrase the renderer scans
for. -/
def envBlockedPhrase : Env :=
  ⟨okUser, okRepos1, ⟨200, mkNoCandidatesBody (some "API key restrictions")⟩⟩

/-! Helper lemmas. -/

theorem genCondition_mkGenBody (t : String) : genCondition (mkGenBody t) = .ok (t != "") := rfl

theorem getGenText_mkGenBody (t : String) : getGenText (mkGenBody t) = .ok (.jstr t) := rfl

theorem noContentMsg_blocked (r : String) (hr : r ≠ "") :
    noContentMsg (mkNoCandidatesBody (some r)) = .ok (contentBlockedMsg r) := by
  simp [noContentMsg, mkNoCandidatesBody, getProp, lookupField, truthy, jsToString, hr,
        Bind.bind, Except.bind, Pure.pure, Except.pure]

theorem noContentMsg_noReason : noContentMsg (mkNoCandidatesBody none) = .ok noSuggestionsMsg := rfl

theorem toList_append (s t : String) : (s ++ t).toList = s.toList ++ t.toList := rfl

theorem digitChar_isDigit : ∀ m : Nat, m < 10 → (Nat.digitChar m).isDigit = true := by decide

theorem toDigitsCore_digits (f : Nat) :
    ∀ (n : Nat) (acc : List Char), (∀ c ∈ acc, c.isDigit = true) →
      ∀ c ∈ Nat.toDigitsCore 10 f n acc, c.isDigit = true := by
  induction f with
  | zero =>
    intro n acc hacc c hc
    simp only [Nat.toDigitsCore] at hc
    exact hacc c hc
  | succ f ih =>
    intro n acc hacc c hc
    have hd : (Nat.digitChar (n % 10)).isDigit = true :=
      digitChar_isDigit (n % 10) (Nat.mod_lt n (by decide))
    have hacc2 : ∀ c ∈ Nat.digitChar (n % 10) :: acc, c.isDigit = true := by
      intro c2 hc2
      rcases List.mem_cons.mp hc2 with h | h
      · rw [h]; exact hd
      · exact hacc c2 h
    simp only [Nat.toDigitsCore] at hc
    split at hc
    · exact hacc2 c hc
    · exact ih (n / 10) (Nat.digitChar (n % 10) :: acc) hacc2 c hc

theorem repr_chars_digit (n : Nat) : ∀ c ∈ (Nat.repr n).toList, c.isDigit = true := by
  intro c hc
  exact toDigitsCore_digits (n + 1) n [] (by intro c2 hc2; cases hc2) c hc

/-- The phrase scanned for by `renderError` never occurs in a message
consisting of a `k`-free prefix followed by a numeral. -/
theorem phrase_not_in_status_msg (pre : String) (hpre : 'k' ∉ pre.toList) (n : Nat) :
    jsIncludes (pre ++ toString n) "API key restrictions" = false := by
  cases hb : jsIncludes (pre ++ toString n) "API key restrictions" with
  | false => rfl
  | true =>
    exfalso
    have hinf : "API key restrictions".toList <:+: (pre ++ toString n).toList :=
      of_decide_eq_true hb
    obtain ⟨u, w, hw⟩ := hinf
    have hk : 'k' ∈ (pre ++ toString n).toList := by
      rw [← hw]
      exact List.mem_append.mpr (Or.inl (List.mem_append.mpr (Or.inr (by decide))))
    rw [toList_append] at hk
    rcases List.mem_append.mp hk with h | h
    · exact hpre h
    · have hdig : ('k').isDigit = true := repr_chars_digit n 'k' h
      exact absurd hdig (by decide)

theorem statusMsg_ne_empty (pre : String) (hpre : pre.toList ≠ []) (n : Nat) :
    pre ++ toString n ≠ "" := by
  intro h
  have h2 : (pre ++ toString n).toList = [] := by rw [h]; rfl
  rw [toList_append] at h2
  exact hpre (List.append_eq_nil.mp h2).1

theorem appendMsg_ne_empty (pre : String) (hpre : pre.toList ≠ []) (r : String) :
    pre ++ r ≠ "" := by
  intro h
  have h2 : (pre ++ r).toList = [] := by rw [h]; rfl
  rw [toList_append] at h2
  exact hpre (List.append_eq_nil.mp h2).1

/-- Full-success characterization of one analysis attempt: nonempty
query, profile and repositories respond 200, the generation response
carries nonempty content text `t` that parses to `v`. The final state
holds the fetched profile and the repository array verbatim, the parsed
suggestions, no error, and the three URLs were fetched in order. -/
theorem handleAnalyze_success (s : UIState) (ud ru : JSValue) (rs : List JSValue) (t : String)
    (v : JSValue) (ps : List (JSValue × JSValue × JSValue × JSValue))
    (h1 : s.username ≠ "") (hru : getProp ud "repos_url" = .ok ru)
    (hproj : promptProjection ud (.jarr rs) = .ok ps) (ht : t ≠ "")
    (hv : jsonParse t = .ok v) :
    handleAnalyze s ⟨⟨200, ud⟩, ⟨200, .jarr rs⟩, ⟨200, mkGenBody t⟩⟩ =
      ({ s with isLoading := false, error := none, userData := ud,
                repos := .jarr rs, suggestions := v },
       [userUrl s.username, jsToString ru ++ reposUrlSuffix, genApiUrl]) := by
  have hb : (t != "") = true := by simp [ht]
  have hc : genCondition (mkGenBody t) = .ok (t != "") := rfl
  rw [hb] at hc
  have hg : getGenText (mkGenBody t) = .ok (.jstr t) := rfl
  simp [handleAnalyze, h1, runTry, respOk, hru, hproj, hc, hg, hv, catchFinally,
        beginAnalysis, jsToString]

/-- C1: the claim says that whenever the profile and repositories
fetches succeed and the generation phase then fails, the fetched data
remains set in the state - including on the first analysis of a fresh
controller instance. On that first analysis the catch block of App.js
(lines 118-121) tests the stale closure value of `userData`, which is
still null, so it clears the just-fetched profile and repositories -
contradicting the claim and the comment on line 117 (`Keep user data
even if AI fails`). The first two conjuncts evaluate the failing run;
the third shows the same attempt keeps the data when the closure value
was already truthy, which is the behavior the comment describes. -/
theorem C1_fresh_generation_failure_clears_fetched_data :
    handleAnalyze freshState envGen403 =
      (⟨"octocat", .jnull, .jarr [], .jarr [], false, some generationForbiddenMsg, none⟩,
       [userUrl "octocat",
        "https://api.github.com/users/octocat/repos" ++ reposUrlSuffix, genApiUrl]) ∧
    (handleAnalyze freshState envGen403).1.userData = .jnull ∧
    (handleAnalyze resultsState envGen403).1.userData = profileBody :=
  ⟨rfl, rfl, rfl⟩

/-- C2 counterexample: with an analysis in flight (`isLoading = true`),
pressing Enter in the query field still invokes `handleAnalyze` (line
187 of App.js has no loading guard): network calls are issued and the
state is mutated, refuting the claim that no submission path can start
a new analysis while Loading. -/
theorem C2_enter_key_submits_during_loading :
    (inputKeyPress "Enter" loadingState envGen403).2 ≠ [] ∧
    (inputKeyPress "Enter" loadingState envGen403).1.isLoading = false ∧
    (inputKeyPress "Enter" loadingState envGen403).1 ≠ loadingState := by
  refine ⟨by decide, rfl, ?_⟩
  intro h
  exact absurd (congrArg UIState.isLoading h) (by decide)

/-- C2 amended: while an analysis is in flight, the button submission
path is disabled and issues no network call and no state change; the
Enter-key path in the query field is not guarded and can start a new
analysis. -/
theorem C2_button_submission_blocked_while_loading (s : UIState) (env : Env)
    (h : s.isLoading = true) : buttonClick s env = (s, []) := by
  simp [buttonClick, h]

theorem C2_button_submission_blocked_while_loading_witness :
    buttonClick loadingState envGen403 = (loadingState, []) :=
  C2_button_submission_blocked_while_loading loadingState envGen403 rfl

/-- C3 counterexample: a whitespace-only query is truthy in JavaScript,
so the guard on line 15 of App.js does not fire: a network call to the
users endpoint is issued and the resulting error is the fetch error,
not the client-side validation message. -/
theorem C3_whitespace_query_issues_network_call :
    (handleAnalyze wsState env404).2 = [userUrl " "] ∧
    (handleAnalyze wsState env404).1.error = some userNotFoundMsg ∧
    (handleAnalyze wsState env404).1.error ≠ some validationMsg :=
  ⟨rfl, rfl, by decide⟩

/-- C3 amended: only the empty query string is rejected client-side:
for it, no network call is issued, the state changes only by the
validation message, and (when not loading) the error banner renders. -/
theorem C3_empty_query_no_network_call (s : UIState) (env : Env) (h : s.username = "") :
    handleAnalyze s env = ({ s with error := some validationMsg }, []) ∧
    (s.isLoading = false → showsError (handleAnalyze s env).1 = true) := by
  have he : handleAnalyze s env = ({ s with error := some validationMsg }, []) := by
    simp [handleAnalyze, h]
  refine ⟨he, ?_⟩
  intro hl
  rw [he]
  show (errTruthy (some validationMsg) && !s.isLoading) = true
  rw [hl]
  decide

/-- State of a freshly mounted component before any input. -/
def emptyQueryState : UIState := ⟨"", .jnull, .jarr [], .jarr [], false, none, none⟩

theorem C3_empty_query_no_network_call_witness :
    handleAnalyze emptyQueryState env404 =
      ({ emptyQueryState with error := some validationMsg }, []) ∧
    showsError (handleAnalyze emptyQueryState env404).1 = true :=
  ⟨(C3_empty_query_no_network_call emptyQueryState env404 rfl).1,
   (C3_empty_query_no_network_call emptyQueryState env404 rfl).2 rfl⟩

/-- Generation content that parses but violates the shape the
specification requires: one object whose `title` and `markdown` are
empty strings. -/
def badShapeText : String := "[\x7b\"title\":\"\",\"markdown\":\"\"\x7d]"

/-- C4 counterexample: a generation response whose content parses to an
array violating the required shape (empty `title` and `markdown`) is
stored as the suggestions with no error of any kind - App.js performs
no shape validation after `JSON.parse` (line 101-102), refuting the
claim that every shape violation yields a GenerationFailed-class
error. -/
theorem C4_shape_violation_stored_without_error :
    (handleAnalyze freshState (envGenOk badShapeText)).1.error = none ∧
    (handleAnalyze freshState (envGenOk badShapeText)).1.suggestions =
      .jarr [.jobj [("title", .jstr ""), ("markdown", .jstr "")]] ∧
    specValidSuggestions (handleAnalyze freshState (envGenOk badShapeText)).1.suggestions
      = false :=
  ⟨rfl, rfl, rfl⟩

/-- C4 amended: the generation content is parsed as JSON; a parse
failure is caught and surfaced as the rendered error message (the
attempt ends with `isLoading` false and the suggestions still empty),
but no shape validation is performed - whatever value the content
parses to is stored as the suggestions unchanged, with no error. -/
theorem C4_parse_outcome_determines_state (s : UIState) (ud ru : JSValue) (rs : List JSValue)
    (t : String) (ps : List (JSValue × JSValue × JSValue × JSValue))
    (h1 : s.username ≠ "") (hru : getProp ud "repos_url" = .ok ru)
    (hproj : promptProjection ud (.jarr rs) = .ok ps) (ht : t ≠ "") :
    (match jsonParse t with
     | .ok v =>
        (handleAnalyze s ⟨⟨200, ud⟩, ⟨200, .jarr rs⟩, ⟨200, mkGenBody t⟩⟩).1.suggestions = v ∧
        (handleAnalyze s ⟨⟨200, ud⟩, ⟨200, .jarr rs⟩, ⟨200, mkGenBody t⟩⟩).1.error = none
     | .error m =>
        (handleAnalyze s ⟨⟨200, ud⟩, ⟨200, .jarr rs⟩, ⟨200, mkGenBody t⟩⟩).1.error =
          some (renderMessage m) ∧
        (handleAnalyze s ⟨⟨200, ud⟩, ⟨200, .jarr rs⟩, ⟨200, mkGenBody t⟩⟩).1.suggestions =
          .jarr [] ∧
        (handleAnalyze s ⟨⟨200, ud⟩, ⟨200, .jarr rs⟩, ⟨200, mkGenBody t⟩⟩).1.isLoading
          = false) := by
  have hb : (t != "") = true := by simp [ht]
  have hc : genCondition (mkGenBody t) = .ok (t != "") := rfl
  rw [hb] at hc
  have hg : getGenText (mkGenBody t) = .ok (.jstr t) := rfl
  cases hjp : jsonParse t with
  | ok v =>
    simp only [hjp]
    rw [handleAnalyze_success s ud ru rs t v ps h1 hru hproj ht hjp]
    exact ⟨rfl, rfl⟩
  | error m =>
    simp only [hjp]
    by_cases hud : truthy s.userData = true
    · simp [handleAnalyze, h1, runTry, respOk, hru, hproj, hc, hg, hjp, catchFinally,
            beginAnalysis, hud, jsToString]
    · simp [handleAnalyze, h1, runTry, respOk, hru, hproj, hc, hg, hjp, catchFinally,
            beginAnalysis, hud, jsToString]

theorem C4_parse_outcome_determines_state_witness :
    (match jsonParse "not json" with
     | .ok v =>
        (handleAnalyze freshState ⟨⟨200, profileBody⟩, ⟨200, .jarr [repoObj 1]⟩,
           ⟨200, mkGenBody "not json"⟩⟩).1.suggestions = v ∧
        (handleAnalyze freshState ⟨⟨200, profileBody⟩, ⟨200, .jarr [repoObj 1]⟩,
           ⟨200, mkGenBody "not json"⟩⟩).1.error = none
     | .error m =>
        (handleAnalyze freshState ⟨⟨200, profileBody⟩, ⟨200, .jarr [repoObj 1]⟩,
           ⟨200, mkGenBody "not json"⟩⟩).1.error = some (renderMessage m) ∧
        (handleAnalyze freshState ⟨⟨200, profileBody⟩, ⟨200, .jarr [repoObj 1]⟩,
           ⟨200, mkGenBody "not json"⟩⟩).1.suggestions = .jarr [] ∧
        (handleAnalyze freshState ⟨⟨200, profileBody⟩, ⟨200, .jarr [repoObj 1]⟩,
           ⟨200, mkGenBody "not json"⟩⟩).1.isLoading = false) :=
  C4_parse_outcome_determines_state freshState profileBody
    (.jstr "https://api.github.com/users/octocat/repos") [repoObj 1] "not json"
    [(.jstr "repo1", .jnull, .jnum 3, .jstr "TypeScript")]
    (by decide) rfl rfl (by decide)

/-- Eleven repository objects, one more than the cap the claim
asserts. -/
def elevenRepos : List JSValue := (List.range 11).map repoObj

/-- C5 counterexample: when the repositories response array holds 11
objects, all 11 are stored - App.js stores the response array verbatim
(line 43) with no client-side cap, refuting the claim that the stored
sequence never exceeds 10 entries regardless of the response size. -/
theorem C5_eleven_repositories_stored :
    (handleAnalyze freshState
        ⟨okUser, ⟨200, .jarr elevenRepos⟩, ⟨200, mkGenBody "[]"⟩⟩).1.repos =
      .jarr elevenRepos ∧
    elevenRepos.length = 11 :=
  ⟨rfl, rfl⟩

/-- C5 amended: on a successful analysis the stored repositories are
the server response array verbatim (order preserved, no client-side
cap); the cap at 10 most-recently-updated entries exists only as the
`?sort=updated&per_page=10` query string of the second request URL. -/
theorem C5_repositories_stored_verbatim (s : UIState) (ud ru : JSValue) (rs : List JSValue)
    (t : String) (v : JSValue) (ps : List (JSValue × JSValue × JSValue × JSValue))
    (h1 : s.username ≠ "") (hru : getProp ud "repos_url" = .ok ru)
    (hproj : promptProjection ud (.jarr rs) = .ok ps) (ht : t ≠ "")
    (hv : jsonParse t = .ok v) :
    (handleAnalyze s ⟨⟨200, ud⟩, ⟨200, .jarr rs⟩, ⟨200, mkGenBody t⟩⟩).1.repos = .jarr rs ∧
    (handleAnalyze s ⟨⟨200, ud⟩, ⟨200, .jarr rs⟩, ⟨200, mkGenBody t⟩⟩).2 =
      [userUrl s.username, jsToString ru ++ "?sort=updated&per_page=10", genApiUrl] := by
  rw [handleAnalyze_success s ud ru rs t v ps h1 hru hproj ht hv]
  exact ⟨rfl, rfl⟩

theorem C5_repositories_stored_verbatim_witness :
    (handleAnalyze freshState
        ⟨⟨200, profileBody⟩, ⟨200, .jarr elevenRepos⟩, ⟨200, mkGenBody "[]"⟩⟩).1.repos =
      .jarr elevenRepos ∧
    (handleAnalyze freshState
        ⟨⟨200, profileBody⟩, ⟨200, .jarr elevenRepos⟩, ⟨200, mkGenBody "[]"⟩⟩).2 =
      [userUrl "octocat",
       "https://api.github.com/users/octocat/repos" ++ "?sort=updated&per_page=10",
       genApiUrl] :=
  C5_repositories_stored_verbatim freshState profileBody
    (.jstr "https://api.github.com/users/octocat/repos") elevenRepos "[]" (.jarr [])
    ((List.range 11).map (fun i =>
      (.jstr ("repo" ++ toString i), .jnull, .jnum 3, .jstr "TypeScript")))
    (by decide) rfl (by rfl) (by decide) rfl

theorem contentBlockedMsg_ne_token (r : String) :
    contentBlockedMsg r ≠ apiKeyRestrictedToken := by
  intro h
  have h2 := congrArg String.length h
  simp only [contentBlockedMsg, apiKeyRestrictedToken, String.length_append] at h2
  have ha : ("AI content blocked: ").length = 20 := rfl
  have hb : ("API_KEY_RESTRICTED").length = 18 := rfl
  omega

theorem renderMessage_contentBlocked (r : String) :
    renderMessage (contentBlockedMsg r) = contentBlockedMsg r := by
  have h1 : contentBlockedMsg r ≠ apiKeyRestrictedToken := contentBlockedMsg_ne_token r
  have h2 : contentBlockedMsg r ≠ "" := appendMsg_ne_empty "AI content blocked: " (by decide) r
  simp [renderMessage, h1, h2]

/-- C6 counterexample: a 200 generation response with a nonempty
candidates array whose first candidate has no `content` field, together
with an explicit block reason. The guard on line 99 of App.js throws a
TypeError while evaluating `candidates[0].content.parts`, so the stored
error is the TypeError message - neither the ContentBlocked message the
claim requires for this response (whose prompt feedback carries
`SAFETY`) nor the NoSuggestions message. -/
theorem C6_missing_content_field_raises_typeerror :
    (handleAnalyze freshState envNoContent).1.error =
      some "TypeError: Cannot read properties of undefined (reading parts)" ∧
    (handleAnalyze freshState envNoContent).1.error ≠ some (contentBlockedMsg "SAFETY") ∧
    (handleAnalyze freshState envNoContent).1.error ≠ some noSuggestionsMsg :=
  ⟨rfl, by decide, by decide⟩

/-- A 200 generation response body with no first-candidate content
text reachable without dereferencing `undefined`: the candidates array
is either present and empty or absent entirely, and the prompt
feedback is either absent or carries a blockReason string - possibly
the empty string, which is falsy. -/
def mkNoContentBody (candsPresent : Bool) (pf : Option String) : JSValue :=
  .jobj ((if candsPresent then [("candidates", .jarr [])] else []) ++
         (match pf with
          | some r => [("promptFeedback", .jobj [("blockReason", .jstr r)])]
          | none => []))

theorem genCondition_mkNoContentBody (candsPresent : Bool) (pf : Option String) :
    genCondition (mkNoContentBody candsPresent pf) = .ok false := by
  cases candsPresent <;> cases pf <;> rfl

theorem noContentMsg_mkNoContentBody (candsPresent : Bool) (pf : Option String) :
    noContentMsg (mkNoContentBody candsPresent pf) =
      .ok (match pf with
           | some r => if r = "" then noSuggestionsMsg else contentBlockedMsg r
           | none => noSuggestionsMsg) := by
  cases candsPresent <;> cases pf with
  | none => rfl
  | some r =>
    by_cases hr : r = ""
    · subst hr
      rfl
    · simp [noContentMsg, mkNoContentBody, getProp, lookupField, truthy, jsToString, hr,
            Bind.bind, Except.bind, Pure.pure, Except.pure]

/-- C6 amended: whenever the 200 generation response has an empty or
absent candidates array (so the first-part text is missing without any
property access on `undefined`), the attempt fails with the
ContentBlocked message when the response carries a truthy - that is,
nonempty - block reason, and with the NoSuggestions message otherwise,
including when the prompt feedback is absent or its block reason is
the empty string; in every case the error banner renders. When
candidates is nonempty but `content` is missing, the guard instead
throws a TypeError (see the counterexample), which is caught and
rendered generically. -/
theorem C6_empty_candidates_dispatch (s : UIState) (ud ru : JSValue) (rs : List JSValue)
    (candsPresent : Bool) (pf : Option String)
    (ps : List (JSValue × JSValue × JSValue × JSValue))
    (h1 : s.username ≠ "") (hru : getProp ud "repos_url" = .ok ru)
    (hproj : promptProjection ud (.jarr rs) = .ok ps) :
    (handleAnalyze s ⟨⟨200, ud⟩, ⟨200, .jarr rs⟩,
        ⟨200, mkNoContentBody candsPresent pf⟩⟩).1.error =
      some (match pf with
            | some r => if r = "" then noSuggestionsMsg else contentBlockedMsg r
            | none => noSuggestionsMsg) ∧
    showsError (handleAnalyze s ⟨⟨200, ud⟩, ⟨200, .jarr rs⟩,
        ⟨200, mkNoContentBody candsPresent pf⟩⟩).1 = true := by
  have hcond := genCondition_mkNoContentBody candsPresent pf
  have hmsg := noContentMsg_mkNoContentBody candsPresent pf
  cases pf with
  | none =>
    have hrm : renderMessage noSuggestionsMsg = noSuggestionsMsg := rfl
    by_cases hud : truthy s.userData = true
    · simp [handleAnalyze, h1, runTry, respOk, hru, hproj, hcond, hmsg, hrm, catchFinally,
            beginAnalysis, hud, showsError, errTruthy, noSuggestionsMsg]
      exact ⟨rfl, by decide⟩
    · simp [handleAnalyze, h1, runTry, respOk, hru, hproj, hcond, hmsg, hrm, catchFinally,
            beginAnalysis, hud, showsError, errTruthy, noSuggestionsMsg]
      exact ⟨rfl, by decide⟩
  | some r =>
    by_cases hr : r = ""
    · subst hr
      have hrm : renderMessage noSuggestionsMsg = noSuggestionsMsg := rfl
      by_cases hud : truthy s.userData = true
      · simp [handleAnalyze, h1, runTry, respOk, hru, hproj, hcond, hmsg, hrm, catchFinally,
              beginAnalysis, hud, showsError, errTruthy, noSuggestionsMsg]
        exact ⟨rfl, by decide⟩
      · simp [handleAnalyze, h1, runTry, respOk, hru, hproj, hcond, hmsg, hrm, catchFinally,
              beginAnalysis, hud, showsError, errTruthy, noSuggestionsMsg]
        exact ⟨rfl, by decide⟩
    · have hrm : renderMessage (contentBlockedMsg r) = contentBlockedMsg r :=
        renderMessage_contentBlocked r
      have hne : (contentBlockedMsg r != "") = true :=
        bne_iff_ne.mpr (appendMsg_ne_empty "AI content blocked: " (by decide) r)
      by_cases hud : truthy s.userData = true
      · simp [handleAnalyze, h1, runTry, respOk, hru, hproj, hcond, hmsg, hrm, catchFinally,
              beginAnalysis, hud, showsError, errTruthy, hne, hr]
      · simp [handleAnalyze, h1, runTry, respOk, hru, hproj, hcond, hmsg, hrm, catchFinally,
              beginAnalysis, hud, showsError, errTruthy, hne, hr]

theorem C6_empty_candidates_dispatch_witness :
    (handleAnalyze freshState ⟨⟨200, profileBody⟩, ⟨200, .jarr [repoObj 1]⟩,
        ⟨200, mkNoContentBody true (some "SAFETY")⟩⟩).1.error =
      some (contentBlockedMsg "SAFETY") ∧
    showsError (handleAnalyze freshState ⟨⟨200, profileBody⟩, ⟨200, .jarr [repoObj 1]⟩,
        ⟨200, mkNoContentBody true (some "SAFETY")⟩⟩).1 = true :=
  C6_empty_candidates_dispatch freshState profileBody
    (.jstr "https://api.github.com/users/octocat/repos") [repoObj 1] true (some "SAFETY")
    [(.jstr "repo1", .jnull, .jnum 3, .jstr "TypeScript")]
    (by decide) rfl rfl

/-- C7: confirmed. On any nonempty submission - in particular from an
Error or Results state - the handler first applies `beginAnalysis`,
which enters Loading with the previous error cleared and the previous
profile, repositories and suggestions all reset to their initial
values, and the fetch cycle then runs from exactly that cleared
state. -/
theorem C7_new_submission_clears_state_before_fetch (s : UIState) (env : Env)
    (h : s.username ≠ "") :
    beginAnalysis s = ⟨s.username, .jnull, .jarr [], .jarr [], true, none, s.copiedIndex⟩ ∧
    handleAnalyze s env =
      (catchFinally s (runTry (beginAnalysis s) env), (runTry (beginAnalysis s) env).urls) := by
  refine ⟨rfl, ?_⟩
  simp [handleAnalyze, h]

theorem C7_new_submission_clears_state_before_fetch_witness :
    beginAnalysis resultsState =
      ⟨resultsState.username, .jnull, .jarr [], .jarr [], true, none,
       resultsState.copiedIndex⟩ ∧
    handleAnalyze resultsState envGen403 =
      (catchFinally resultsState (runTry (beginAnalysis resultsState) envGen403),
       (runTry (beginAnalysis resultsState) envGen403).urls) :=
  C7_new_submission_clears_state_before_fetch resultsState envGen403 (by decide)

/-- C8 counterexample: the error stored when the repositories fetch
fails is the fixed string of line 38 of App.js; it does not carry the
HTTP status - the digits `500` do not occur in it and the message for
status 503 is identical to the one for status 500. -/
theorem C8_repositories_error_does_not_carry_status :
    (handleAnalyze freshState (envReposFail 500)).1.error = some reposFetchFailedMsg ∧
    jsIncludes reposFetchFailedMsg "500" = false ∧
    (handleAnalyze freshState (envReposFail 503)).1.error =
      (handleAnalyze freshState (envReposFail 500)).1.error :=
  ⟨rfl, by decide, rfl⟩

/-- C8 amended: when the profile fetch succeeds and the repositories
fetch returns any non-success status, the attempt fails with the fixed
repositories-fetch message (which does not carry the status), the error
banner renders, and the profile field remains unset (`null`). -/
theorem C8_repositories_failure_fixed_message (s : UIState) (ud ru : JSValue)
    (rrsp grsp : Response)
    (h1 : s.username ≠ "") (hru : getProp ud "repos_url" = .ok ru)
    (h5 : respOk rrsp = false) :
    handleAnalyze s ⟨⟨200, ud⟩, rrsp, grsp⟩ =
      ({ s with isLoading := false, error := some reposFetchFailedMsg,
                userData := .jnull, repos := .jarr [], suggestions := .jarr [] },
       [userUrl s.username, jsToString ru ++ reposUrlSuffix]) ∧
    showsError (handleAnalyze s ⟨⟨200, ud⟩, rrsp, grsp⟩).1 = true := by
  have hok : respOk ⟨200, ud⟩ = true := rfl
  have hrm : renderMessage reposFetchFailedMsg = reposFetchFailedMsg := rfl
  have he : handleAnalyze s ⟨⟨200, ud⟩, rrsp, grsp⟩ =
      ({ s with isLoading := false, error := some reposFetchFailedMsg,
                userData := .jnull, repos := .jarr [], suggestions := .jarr [] },
       [userUrl s.username, jsToString ru ++ reposUrlSuffix]) := by
    by_cases hud : truthy s.userData = true
    · simp [handleAnalyze, h1, runTry, hok, h5, hru, catchFinally, beginAnalysis, hud, hrm]
    · simp [handleAnalyze, h1, runTry, hok, h5, hru, catchFinally, beginAnalysis, hud, hrm]
  refine ⟨he, ?_⟩
  rw [he]
  rfl

theorem C8_repositories_failure_fixed_message_witness :
    handleAnalyze freshState ⟨⟨200, profileBody⟩, ⟨500, .jobj []⟩, ⟨200, .jobj []⟩⟩ =
      ({ freshState with
          isLoading := false, error := some reposFetchFailedMsg,
          userData := .jnull, repos := .jarr [], suggestions := .jarr [] },
       [userUrl "octocat",
        jsToString (.jstr "https://api.github.com/users/octocat/repos") ++ reposUrlSuffix]) ∧
    showsError
      (handleAnalyze freshState ⟨⟨200, profileBody⟩, ⟨500, .jobj []⟩, ⟨200, .jobj []⟩⟩).1 =
      true :=
  C8_repositories_failure_fixed_message freshState profileBody
    (.jstr "https://api.github.com/users/octocat/repos") ⟨500, .jobj []⟩ ⟨200, .jobj []⟩
    (by decide) rfl rfl

/-- C9 counterexample: the renderer dispatches on whether the message
contains the phrase `API key restrictions` (line 145 of App.js), not on
the error kind. A ContentBlocked error whose server-supplied block
reason contains that phrase is therefore rendered through the
restricted-capability path, although the claim requires every kind
other than GenerationForbidden to use the generic alarming path. -/
theorem C9_content_blocked_reason_renders_restricted :
    (handleAnalyze freshState envBlockedPhrase).1.error =
      some (contentBlockedMsg "API key restrictions") ∧
    renderErrorKind (handleAnalyze freshState envBlockedPhrase).1.error =
      some RenderKind.restricted ∧
    (handleAnalyze freshState envBlockedPhrase).1.error ≠ some generationForbiddenMsg :=
  ⟨rfl, rfl, by decide⟩

/-- C9 amended: the restricted rendering fires exactly for the
GenerationForbidden message and for a ContentBlocked message whose
(server-supplied) text happens to contain the phrase `API key
restrictions`; every other kind of the taxonomy - the validation,
user-not-found, profile-fetch-failed and generation-failed messages for
every status, the repositories-fetch-failed and no-suggestions
messages, and every other ContentBlocked reason - renders through the
generic alarming path. -/
theorem C9_restricted_rendering_dispatch (k : ErrKind) :
    renderErrorKind (some (errKindMsg k)) = some RenderKind.restricted ↔
      k = ErrKind.generationForbidden ∨
      ∃ r, k = ErrKind.contentBlocked r ∧
        jsIncludes (contentBlockedMsg r) "API key restrictions" = true := by
  cases k with
  | validation =>
    refine iff_of_false (by decide) ?_
    rintro (h | ⟨r, hr, _⟩)
    · exact ErrKind.noConfusion h
    · exact ErrKind.noConfusion hr
  | userNotFound =>
    refine iff_of_false (by decide) ?_
    rintro (h | ⟨r, hr, _⟩)
    · exact ErrKind.noConfusion h
    · exact ErrKind.noConfusion hr
  | reposFetchFailed =>
    refine iff_of_false (by decide) ?_
    rintro (h | ⟨r, hr, _⟩)
    · exact ErrKind.noConfusion h
    · exact ErrKind.noConfusion hr
  | noSuggestions =>
    refine iff_of_false (by decide) ?_
    rintro (h | ⟨r, hr, _⟩)
    · exact ErrKind.noConfusion h
    · exact ErrKind.noConfusion hr
  | generationForbidden => exact iff_of_true (by decide) (Or.inl rfl)
  | profileFetchFailed n =>
    have hne : profileFetchFailedMsg n ≠ "" :=
      statusMsg_ne_empty "Failed to fetch GitHub user data. Status: " (by decide) n
    have hinc : jsIncludes (profileFetchFailedMsg n) "API key restrictions" = false :=
      phrase_not_in_status_msg "Failed to fetch GitHub user data. Status: " (by decide) n
    refine iff_of_false ?_ ?_
    · intro h
      simp [renderErrorKind, errKindMsg, hne, hinc] at h
    · rintro (h | ⟨r, hr, _⟩)
      · exact ErrKind.noConfusion h
      · exact ErrKind.noConfusion hr
  | generationFailed n =>
    have hne : generationFailedMsg n ≠ "" :=
      statusMsg_ne_empty "AI API call failed with status: " (by decide) n
    have hinc : jsIncludes (generationFailedMsg n) "API key restrictions" = false :=
      phrase_not_in_status_msg "AI API call failed with status: " (by decide) n
    refine iff_of_false ?_ ?_
    · intro h
      simp [renderErrorKind, errKindMsg, hne, hinc] at h
    · rintro (h | ⟨r, hr, _⟩)
      · exact ErrKind.noConfusion h
      · exact ErrKind.noConfusion hr
  | contentBlocked r =>
    have hne : contentBlockedMsg r ≠ "" :=
      appendMsg_ne_empty "AI content blocked: " (by decide) r
    constructor
    · intro h
      by_cases hinc : jsIncludes (contentBlockedMsg r) "API key restrictions" = true
      · exact Or.inr ⟨r, rfl, hinc⟩
      · exfalso
        simp [renderErrorKind, errKindMsg, hne, hinc] at h
    · rintro (h | ⟨r2, hr2, hinc⟩)
      · exact ErrKind.noConfusion h
      · injection hr2 with h3
        subst h3
        simp [renderErrorKind, errKindMsg, hne, hinc]

/-- C10: confirmed. Submitting the empty query changes only the error
field - loading flag, profile, repositories, suggestions, query text
and copied indicator are all left unchanged and no fetch is issued -
and when a fetched Results view was showing (not loading, truthy
profile), both the results block and the error banner render
afterwards. -/
theorem C10_empty_submission_frame (s : UIState) (env : Env) (h : s.username = "") :
    handleAnalyze s env = ({ s with error := some validationMsg }, []) ∧
    (s.isLoading = false → truthy s.userData = true →
      showsResults (handleAnalyze s env).1 = true ∧
      showsError (handleAnalyze s env).1 = true) := by
  have he : handleAnalyze s env = ({ s with error := some validationMsg }, []) := by
    simp [handleAnalyze, h]
  refine ⟨he, ?_⟩
  intro hl hu
  rw [he]
  constructor
  · show (!s.isLoading && truthy s.userData) = true
    rw [hl, hu]
    rfl
  · show (errTruthy (some validationMsg) && !s.isLoading) = true
    rw [hl]
    decide

/-- A committed Results state whose query text has been cleared. -/
def emptyQueryResultsState : UIState :=
  ⟨"", profileBody, .jarr [repoObj 1], .jarr [], false, none, none⟩

theorem C10_empty_submission_frame_witness :
    handleAnalyze emptyQueryResultsState env404 =
      ({ emptyQueryResultsState with error := some validationMsg }, []) ∧
    showsResults (handleAnalyze emptyQueryResultsState env404).1 = true ∧
    showsError (handleAnalyze emptyQueryResultsState env404).1 = true :=
  ⟨(C10_empty_submission_frame emptyQueryResultsState env404 rfl).1,
   (C10_empty_submission_frame emptyQueryResultsState env404 rfl).2 rfl rfl⟩
